import Mathlib

/-!
# atom_api_menu.cc : the Menu binding

A shallow embedding of `src/browser/api/atom_api_menu.cc`.

The file is glue between three things it does not own: the V8 engine, the
`ui::SimpleMenuModel` of the native toolkit and `accelerator_util`.  The
embedding keeps the code of the file and represents the three neighbours as
follows.

* V8 values are the inductive `Value`.  A Number is carried by what the three
  conversions used in the file yield on it (`IntegerValue`, `BooleanValue`,
  `String::Value`), so no floating point arithmetic is needed.  Objects live in
  a heap indexed by reference; an object record holds its property lookup, its
  call behaviour when it is a function, and the pointer in internal field 0.
  Calls into JavaScript are taken to complete normally and are recorded in a
  log of `DelegateCall`s.  Conversions of an object (`IntegerValue`, `ToString`)
  run script in V8; the object records hold their result for the case that they
  complete without effect, and the statements below apply the conversions to
  primitive values only.
* The menu model is a black box: every call the binding makes on a `model_` is
  recorded in the `calls` log of the `Outcome`; the answers of the query
  operations are read from the `SimpleMenuModel` record of the world.
* `accelerator_util::StringToAccelerator` is a parameter.

C++ `int` is 32 bit: a value is stored into an `int` through `toInt`.
-/

namespace atom.api

/-! ## V8 values -/

/-- UTF-16 text (`string16`, `v8::String`), as its code units. -/
abbrev String16 := List Nat

/-- Code units of an ASCII text. -/
def utf16 (s : String) : String16 := s.toList.map Char.toNat

/-- A JavaScript Number, carried by the results of the conversions this file
applies to it. -/
structure Number where
  /-- the `int64_t` that `IntegerValue()` returns -/
  integerValue : Int
  /-- the result of `BooleanValue()`: false for 0 and NaN -/
  booleanValue : Bool
  /-- the code units `ToString` produces -/
  text : String16
deriving DecidableEq, Repr

/-- A V8 value handle. -/
inductive Value where
  | undefined
  | null
  | boolean (b : Bool)
  | number (n : Number)
  | string (s : String16)
  | object (ref : Nat)
deriving DecidableEq, Repr

/-- Narrowing to a 32 bit C++ `int` (two's complement wrap-around). -/
def toInt (x : Int) : Int := (x + 2147483648) % 4294967296 - 2147483648

namespace Value

/-- The call `v8::False()`. -/
def False : Value := boolean false

/-- The call `v8::True()`. -/
def True : Value := boolean true

/-- The call `v8::Undefined()`. -/
def Undefined : Value := undefined

/-- The call `v8::Integer::New(i)` on a C++ `int`. -/
def Integer_New (i : Int) : Value :=
  number ⟨i, i != 0, utf16 (toString i)⟩

/-- The call `v8::Boolean::New(b)`. -/
def Boolean_New (b : Bool) : Value := boolean b

def IsObject : Value → Bool
  | object _ => true
  | _ => false

def IsNumber : Value → Bool
  | number _ => true
  | _ => false

def IsString : Value → Bool
  | string _ => true
  | _ => false

/-- The method `ToObject` on a value that is an object: its reference. -/
def ToObject : Value → Option Nat
  | object ref => some ref
  | _ => none

end Value

/-- A heap object. -/
structure JSObject where
  /-- property lookup, the method `Get` -/
  Get : String → Value
  /-- for a function: the result of `Call(receiver, argc, argv)` -/
  call : Option (Value → List Value → Value)
  /-- the native pointer in internal field 0; `none` is NULL -/
  internalField : Option Nat
  /-- the code units `ToString` yields on the object, for an object whose
  `toString` / `valueOf` completes normally and has no effect on a menu -/
  text : String16
  /-- the `int64_t` that `IntegerValue()` yields on the object, for an object
  whose `valueOf` / `toString` completes normally and has no effect on a menu -/
  integerValue : Int

/-- Answers of the query operations of one `ui::SimpleMenuModel`. -/
structure SimpleMenuModel where
  GetIndexOfCommandId : Int → Int
  GetItemCount : Int
  GetCommandIdAt : Int → Int
  GetLabelAt : Int → String16
  GetSublabelAt : Int → String16
  IsItemCheckedAt : Int → Bool
  IsEnabledAt : Int → Bool
  IsVisibleAt : Int → Bool

/-- Everything outside the file that its functions read. -/
structure World where
  /-- the V8 heap -/
  heap : Nat → JSObject
  /-- the value of `v8::Context::GetCurrent()->Global()` -/
  Global : Value
  /-- the `model_` of the native Menu at a pointer -/
  model : Nat → SimpleMenuModel
  /-- the `int64_t` that `IntegerValue()` yields on a string -/
  stringIntegerValue : String16 → Int
  /-- the pointer `Window::Unwrap<Window>(v->ToObject())`; `none` is NULL -/
  unwrapWindow : Value → Option Nat

/-- The method `v8::Value::IsFunction`. -/
def IsFunction (w : World) : Value → Bool
  | .object r => (w.heap r).call.isSome
  | _ => false

/-- The method `v8::Value::BooleanValue`. -/
def BooleanValue : Value → Bool
  | .undefined => false
  | .null => false
  | .boolean b => b
  | .number n => n.booleanValue
  | .string s => !s.isEmpty
  | .object _ => true

/-- The method `v8::Value::IntegerValue` (an `int64_t`).  On a primitive the
conversion is V8's own and runs no script.  On an object V8 runs the `valueOf` /
`toString` of the object, which may throw or call back into a menu; the object
case below stands for a conversion that does neither, and no statement in this
file is made about `IntegerValue` on an object. -/
def IntegerValue (w : World) : Value → Int
  | .undefined => 0
  | .null => 0
  | .boolean b => if b then 1 else 0
  | .number n => n.integerValue
  | .string s => w.stringIntegerValue s
  | .object r => (w.heap r).integerValue

/-- The code units held by a `v8::String::Value` built from a value: those of
its `ToString` conversion.  The object case stands for a conversion that
completes normally; no statement in this file is made about it. -/
def String_Value (w : World) : Value → String16
  | .undefined => utf16 "undefined"
  | .null => utf16 "null"
  | .boolean b => if b then utf16 "true" else utf16 "false"
  | .number n => n.text
  | .string s => s
  | .object r => (w.heap r).text

/-- UTF-8 bytes of one code point. -/
def utf8Encode (c : Nat) : List Nat :=
  if c < 128 then [c]
  else if c < 2048 then [192 + c / 64, 128 + c % 64]
  else if c < 65536 then [224 + c / 4096, 128 + c / 64 % 64, 128 + c % 64]
  else [240 + c / 262144, 128 + c / 4096 % 64, 128 + c / 64 % 64, 128 + c % 64]

/-- The bytes held by a `v8::String::Utf8Value` built from a string: surrogate
pairs are joined, every other code unit is encoded by itself. -/
def Utf8Value : String16 → List Nat
  | [] => []
  | [c] => utf8Encode c
  | hi :: lo :: rest =>
    if 55296 ≤ hi ∧ hi < 56320 ∧ 56320 ≤ lo ∧ lo < 57344 then
      utf8Encode (65536 + (hi - 55296) * 1024 + (lo - 56320)) ++ Utf8Value rest
    else
      utf8Encode hi ++ Utf8Value (lo :: rest)

/-- The `std::string` built from a `const char*`: the bytes before the first
NUL. -/
def std_string (bytes : List Nat) : List Nat := bytes.takeWhile (fun b => b != 0)

/-! ## Anonymous namespace -/

/-- Converts a V8 value to a string16. -/
def V8ValueToUTF16 (w : World) (value : Value) : String16 := String_Value w value

/-- Converts string16 to V8 String. -/
def UTF16ToV8Value (s : String16) : Value := .string s

/-- One `function->Call(receiver, argc, argv)` made by `CallDelegate`. -/
structure DelegateCall where
  function : Value
  receiver : Value
  argv : List Value
deriving DecidableEq, Repr

/-- The method `Call` of a function handle. -/
def Call (w : World) (function : Value) (receiver : Value) (argv : List Value) : Value :=
  match function with
  | .object r =>
    match (w.heap r).call with
    | some f => f receiver argv
    | none => .undefined
  | _ => .undefined

/-- Call method of delegate object.  Returns the value and the calls made. -/
def CallDelegate (w : World) (default_value : Value) (menu : Nat) (method : String)
    (command_id : Int) : Value × List DelegateCall :=
  let delegate := (w.heap menu).Get "delegate"
  match delegate with
  | .object d =>
    let function := (w.heap d).Get method
    if !IsFunction w function then
      (default_value, [])
    else
      let argv := Value.Integer_New command_id
      (Call w function w.Global [argv], [⟨function, w.Global, [argv]⟩])
  | _ => (default_value, [])

/-! ## Delegate-facing methods of `Menu` -/

/-- A native `Menu`: the reference of its JavaScript wrapper, `handle()`. -/
structure Menu where
  handle : Nat
deriving DecidableEq, Repr

def Menu.IsCommandIdChecked (w : World) (self : Menu) (command_id : Int) :
    Bool × List DelegateCall :=
  let r := CallDelegate w Value.False self.handle "isCommandIdChecked" command_id
  (BooleanValue r.1, r.2)

def Menu.IsCommandIdEnabled (w : World) (self : Menu) (command_id : Int) :
    Bool × List DelegateCall :=
  let r := CallDelegate w Value.True self.handle "isCommandIdEnabled" command_id
  (BooleanValue r.1, r.2)

def Menu.IsCommandIdVisible (w : World) (self : Menu) (command_id : Int) :
    Bool × List DelegateCall :=
  let r := CallDelegate w Value.True self.handle "isCommandIdVisible" command_id
  (BooleanValue r.1, r.2)

/-- The accelerator is an in-out argument: the result carries the returned
flag and the accelerator after the call. -/
def Menu.GetAcceleratorForCommandId {Accelerator : Type}
    (StringToAccelerator : List Nat → Accelerator → Bool × Accelerator)
    (w : World) (self : Menu) (command_id : Int) (accelerator : Accelerator) :
    (Bool × Accelerator) × List DelegateCall :=
  let r := CallDelegate w Value.Undefined self.handle "getAcceleratorForCommandId" command_id
  match r.1 with
  | .string s =>
    let shortcut_str := std_string (Utf8Value s)
    (StringToAccelerator shortcut_str accelerator, r.2)
  | _ => ((false, accelerator), r.2)

def Menu.IsItemForCommandIdDynamic (w : World) (self : Menu) (command_id : Int) :
    Bool × List DelegateCall :=
  let r := CallDelegate w Value.False self.handle "isItemForCommandIdDynamic" command_id
  (BooleanValue r.1, r.2)

def Menu.GetLabelForCommandId (w : World) (self : Menu) (command_id : Int) :
    String16 × List DelegateCall :=
  let r := CallDelegate w Value.False self.handle "getLabelForCommandId" command_id
  (V8ValueToUTF16 w r.1, r.2)

def Menu.GetSublabelForCommandId (w : World) (self : Menu) (command_id : Int) :
    String16 × List DelegateCall :=
  let r := CallDelegate w Value.False self.handle "getSubLabelForCommandId" command_id
  (V8ValueToUTF16 w r.1, r.2)

/-- Returns nothing; the result is the log of calls made. -/
def Menu.ExecuteCommand (w : World) (self : Menu) (command_id : Int) (_event_flags : Int) :
    List DelegateCall :=
  (CallDelegate w Value.False self.handle "executeCommand" command_id).2

/-! ## Script-facing methods of `Menu` -/

/-- How a bound method ends. -/
inductive Completion where
  /-- a normal return of a value -/
  | returns (v : Value)
  /-- the result of `node::ThrowError(message)` -/
  | ThrowError (message : String)
  /-- the result of `node::ThrowTypeError(message)` -/
  | ThrowTypeError (message : String)
deriving DecidableEq, Repr

/-- The enumeration `ui::MenuSeparatorType`, as far as the file names it. -/
inductive MenuSeparatorType where
  | NORMAL_SEPARATOR
deriving DecidableEq, Repr

/-- An operation of `ui::SimpleMenuModel` with its arguments.  A model argument
is given by the pointer of the `Menu` that owns it. -/
inductive ModelCall where
  | AddItem (command_id : Int) (label : String16)
  | InsertItemAt (index command_id : Int) (label : String16)
  | AddCheckItem (command_id : Int) (label : String16)
  | InsertCheckItemAt (index command_id : Int) (label : String16)
  | AddRadioItem (command_id : Int) (label : String16) (group_id : Int)
  | InsertRadioItemAt (index command_id : Int) (label : String16) (group_id : Int)
  | AddSeparator (type : MenuSeparatorType)
  | InsertSeparatorAt (index : Int) (type : MenuSeparatorType)
  | AddSubMenu (command_id : Int) (label : String16) (model : Nat)
  | InsertSubMenuAt (index command_id : Int) (label : String16) (model : Nat)
  | SetSublabel (index : Int) (sublabel : String16)
  | Clear
  | GetIndexOfCommandId (command_id : Int)
  | GetItemCount
  | GetCommandIdAt (index : Int)
  | GetLabelAt (index : Int)
  | GetSublabelAt (index : Int)
  | IsItemCheckedAt (index : Int)
  | IsEnabledAt (index : Int)
  | IsVisibleAt (index : Int)
deriving DecidableEq, Repr

/-- A call a bound method makes on native state. -/
inductive Effect where
  /-- the call `self->model_->op(...)`, `self` given by its pointer -/
  | model (self : Nat) (op : ModelCall)
  /-- the call `self->Popup(window->window())` -/
  | popup (self : Nat) (window : Nat)
deriving DecidableEq, Repr

/-- Result of a bound method: how it ends and the native calls it made, in
order. -/
structure Outcome where
  completion : Completion
  calls : List Effect
deriving DecidableEq, Repr

/-- The class `v8::Arguments`: the receiver and the actual arguments. -/
structure Arguments where
  This : Nat
  argv : List Value
deriving DecidableEq, Repr

/-- The operator `args[i]`: undefined beyond the actual arguments. -/
def Arguments.get (args : Arguments) (i : Nat) : Value := args.argv.getD i .undefined

/-- The call `ObjectWrap::Unwrap<Menu>(object)`: the pointer in internal field
0, `none` for NULL. -/
def Unwrap (w : World) (object : Nat) : Option Nat := (w.heap object).internalField

/-- The macro of the same name: unwraps the receiver and throws when it is
NULL; `body` is the rest of the method. -/
def UNWRAP_MEMNU_AND_CHECK (w : World) (args : Arguments) (body : Nat → Outcome) : Outcome :=
  match Unwrap w args.This with
  | none => ⟨.ThrowError "Menu is already destroyed", []⟩
  | some self => body self

def Menu.InsertItem (w : World) (args : Arguments) : Outcome :=
  UNWRAP_MEMNU_AND_CHECK w args fun self =>
    if !(args.get 0).IsNumber || !(args.get 1).IsNumber || !(args.get 2).IsString then
      ⟨.ThrowTypeError "Bad argument", []⟩
    else
      let index := toInt (IntegerValue w (args.get 0))
      if index < 0 then
        ⟨.returns .Undefined,
          [.model self (.AddItem (toInt (IntegerValue w (args.get 1)))
            (V8ValueToUTF16 w (args.get 2)))]⟩
      else
        ⟨.returns .Undefined,
          [.model self (.InsertItemAt index (toInt (IntegerValue w (args.get 1)))
            (V8ValueToUTF16 w (args.get 2)))]⟩

def Menu.InsertCheckItem (w : World) (args : Arguments) : Outcome :=
  UNWRAP_MEMNU_AND_CHECK w args fun self =>
    if !(args.get 0).IsNumber || !(args.get 1).IsNumber || !(args.get 2).IsString then
      ⟨.ThrowTypeError "Bad argument", []⟩
    else
      let index := toInt (IntegerValue w (args.get 0))
      let command_id := toInt (IntegerValue w (args.get 1))
      if index < 0 then
        ⟨.returns .Undefined,
          [.model self (.AddCheckItem command_id (V8ValueToUTF16 w (args.get 2)))]⟩
      else
        ⟨.returns .Undefined,
          [.model self (.InsertCheckItemAt index command_id (V8ValueToUTF16 w (args.get 2)))]⟩

def Menu.InsertRadioItem (w : World) (args : Arguments) : Outcome :=
  UNWRAP_MEMNU_AND_CHECK w args fun self =>
    if !(args.get 0).IsNumber ||
        !(args.get 1).IsNumber ||
        !(args.get 2).IsString ||
        !(args.get 3).IsNumber then
      ⟨.ThrowTypeError "Bad argument", []⟩
    else
      let index := toInt (IntegerValue w (args.get 0))
      let command_id := toInt (IntegerValue w (args.get 1))
      let group_id := toInt (IntegerValue w (args.get 3))
      if index < 0 then
        ⟨.returns .Undefined,
          [.model self (.AddRadioItem command_id (V8ValueToUTF16 w (args.get 2)) group_id)]⟩
      else
        ⟨.returns .Undefined,
          [.model self
            (.InsertRadioItemAt index command_id (V8ValueToUTF16 w (args.get 2)) group_id)]⟩

def Menu.InsertSeparator (w : World) (args : Arguments) : Outcome :=
  UNWRAP_MEMNU_AND_CHECK w args fun self =>
    if !(args.get 0).IsNumber then
      ⟨.ThrowTypeError "Bad argument", []⟩
    else
      let index := toInt (IntegerValue w (args.get 0))
      if index < 0 then
        ⟨.returns .Undefined, [.model self (.AddSeparator .NORMAL_SEPARATOR)]⟩
      else
        ⟨.returns .Undefined, [.model self (.InsertSeparatorAt index .NORMAL_SEPARATOR)]⟩

def Menu.InsertSubMenu (w : World) (args : Arguments) : Outcome :=
  UNWRAP_MEMNU_AND_CHECK w args fun self =>
    if !(args.get 0).IsNumber ||
        !(args.get 1).IsNumber ||
        !(args.get 2).IsString ||
        !(args.get 3).IsObject then
      ⟨.ThrowTypeError "Bad argument", []⟩
    else
      match (args.get 3).ToObject.bind (Unwrap w) with
      | none => ⟨.ThrowTypeError "The submenu is already destroyed", []⟩
      | some submenu =>
        let index := toInt (IntegerValue w (args.get 0))
        let command_id := toInt (IntegerValue w (args.get 1))
        if index < 0 then
          ⟨.returns .Undefined,
            [.model self (.AddSubMenu command_id (V8ValueToUTF16 w (args.get 2)) submenu)]⟩
        else
          ⟨.returns .Undefined,
            [.model self
              (.InsertSubMenuAt index command_id (V8ValueToUTF16 w (args.get 2)) submenu)]⟩

def Menu.SetIcon (w : World) (args : Arguments) : Outcome :=
  UNWRAP_MEMNU_AND_CHECK w args fun _self =>
    if !(args.get 0).IsNumber || !(args.get 1).IsString then
      ⟨.ThrowTypeError "Bad argument", []⟩
    else
      ⟨.returns .Undefined, []⟩

def Menu.SetSublabel (w : World) (args : Arguments) : Outcome :=
  UNWRAP_MEMNU_AND_CHECK w args fun self =>
    if !(args.get 0).IsNumber || !(args.get 1).IsString then
      ⟨.ThrowTypeError "Bad argument", []⟩
    else
      ⟨.returns .Undefined,
        [.model self (.SetSublabel (toInt (IntegerValue w (args.get 0)))
          (V8ValueToUTF16 w (args.get 1)))]⟩

def Menu.Clear (w : World) (args : Arguments) : Outcome :=
  UNWRAP_MEMNU_AND_CHECK w args fun self =>
    ⟨.returns .Undefined, [.model self .Clear]⟩

def Menu.GetIndexOfCommandId (w : World) (args : Arguments) : Outcome :=
  UNWRAP_MEMNU_AND_CHECK w args fun self =>
    let index := toInt (IntegerValue w (args.get 0))
    ⟨.returns (.Integer_New ((w.model self).GetIndexOfCommandId index)),
      [.model self (.GetIndexOfCommandId index)]⟩

def Menu.GetItemCount (w : World) (args : Arguments) : Outcome :=
  UNWRAP_MEMNU_AND_CHECK w args fun self =>
    ⟨.returns (.Integer_New (w.model self).GetItemCount), [.model self .GetItemCount]⟩

def Menu.GetCommandIdAt (w : World) (args : Arguments) : Outcome :=
  UNWRAP_MEMNU_AND_CHECK w args fun self =>
    let index := toInt (IntegerValue w (args.get 0))
    ⟨.returns (.Integer_New ((w.model self).GetCommandIdAt index)),
      [.model self (.GetCommandIdAt index)]⟩

def Menu.GetLabelAt (w : World) (args : Arguments) : Outcome :=
  UNWRAP_MEMNU_AND_CHECK w args fun self =>
    let index := toInt (IntegerValue w (args.get 0))
    ⟨.returns (UTF16ToV8Value ((w.model self).GetLabelAt index)),
      [.model self (.GetLabelAt index)]⟩

def Menu.GetSublabelAt (w : World) (args : Arguments) : Outcome :=
  UNWRAP_MEMNU_AND_CHECK w args fun self =>
    let index := toInt (IntegerValue w (args.get 0))
    ⟨.returns (UTF16ToV8Value ((w.model self).GetSublabelAt index)),
      [.model self (.GetSublabelAt index)]⟩

def Menu.IsItemCheckedAt (w : World) (args : Arguments) : Outcome :=
  UNWRAP_MEMNU_AND_CHECK w args fun self =>
    let index := toInt (IntegerValue w (args.get 0))
    ⟨.returns (.Boolean_New ((w.model self).IsItemCheckedAt index)),
      [.model self (.IsItemCheckedAt index)]⟩

def Menu.IsEnabledAt (w : World) (args : Arguments) : Outcome :=
  UNWRAP_MEMNU_AND_CHECK w args fun self =>
    ⟨.returns (.Boolean_New ((w.model self).IsEnabledAt (toInt (IntegerValue w (args.get 0))))),
      [.model self (.IsEnabledAt (toInt (IntegerValue w (args.get 0))))]⟩

def Menu.IsVisibleAt (w : World) (args : Arguments) : Outcome :=
  UNWRAP_MEMNU_AND_CHECK w args fun self =>
    ⟨.returns (.Boolean_New ((w.model self).IsVisibleAt (toInt (IntegerValue w (args.get 0))))),
      [.model self (.IsVisibleAt (toInt (IntegerValue w (args.get 0))))]⟩

def Menu.Popup (w : World) (args : Arguments) : Outcome :=
  UNWRAP_MEMNU_AND_CHECK w args fun self =>
    match w.unwrapWindow (args.get 0) with
    | none => ⟨.ThrowTypeError "Invalid window", []⟩
    | some window => ⟨.returns .Undefined, [.popup self window]⟩

/-- The prototype methods set by `Menu::Initialize`, in order: the script name
and the function bound to it. -/
def Menu.Initialize : List (String × (World → Arguments → Outcome)) :=
  [("insertItem", Menu.InsertItem),
   ("insertCheckItem", Menu.InsertCheckItem),
   ("insertRadioItem", Menu.InsertRadioItem),
   ("insertSeparator", Menu.InsertSeparator),
   ("insertSubMenu", Menu.InsertSubMenu),
   ("setIcon", Menu.SetIcon),
   ("setSublabel", Menu.SetSublabel),
   ("clear", Menu.Clear),
   ("getIndexOfCommandId", Menu.GetIndexOfCommandId),
   ("getItemCount", Menu.GetItemCount),
   ("getCommandIdAt", Menu.GetCommandIdAt),
   ("getLabelAt", Menu.GetLabelAt),
   ("getSublabelAt", Menu.GetSublabelAt),
   ("isItemCheckedAt", Menu.IsItemCheckedAt),
   ("isEnabledAt", Menu.IsEnabledAt),
   ("isVisibleAt", Menu.IsVisibleAt),
   ("popup", Menu.Popup)]

/-! ## Predicates used in the statements -/

/-- The delegate of the menu at `menu` offers no function `method`: the
`delegate` property is not an object, or it is an object whose property
`method` is not a function. -/
def MethodAbsent (w : World) (menu : Nat) (method : String) : Prop :=
  ((w.heap menu).Get "delegate").IsObject = false ∨
    ∃ d, (w.heap menu).Get "delegate" = .object d ∧
      IsFunction w ((w.heap d).Get method) = false

/-- The delegate of the menu at `menu` is an object whose property `method` is
the function `function`. -/
def MethodPresent (w : World) (menu : Nat) (method : String) (function : Value) : Prop :=
  ∃ d, (w.heap menu).Get "delegate" = .object d ∧
    (w.heap d).Get method = function ∧ IsFunction w function = true

/-- The value fits a 32 bit C++ `int`. -/
def InIntRange (x : Int) : Prop := -2147483648 ≤ x ∧ x ≤ 2147483647

/-! ## Sample worlds -/

/-- An object with no properties, not callable, internal field NULL. -/
def plainObject : JSObject :=
  { Get := fun _ => .undefined
    call := none
    internalField := none
    text := utf16 "[object Object]"
    integerValue := 0 }

/-- A model with three items whose command ids are 10, 11, 12. -/
def sampleModel : SimpleMenuModel :=
  { GetIndexOfCommandId := fun c => c - 10
    GetItemCount := 3
    GetCommandIdAt := fun i => i + 10
    GetLabelAt := fun _ => utf16 "Item"
    GetSublabelAt := fun _ => []
    IsItemCheckedAt := fun _ => false
    IsEnabledAt := fun _ => true
    IsVisibleAt := fun _ => true }

/-- Object 0 wraps the live native Menu 100 and has no delegate; object 5 is a
destroyed Menu wrapper; object 6 wraps the live native Menu 101. -/
def bareWorld : World :=
  { heap := fun r =>
      if r = 0 then { plainObject with internalField := some 100 }
      else if r = 6 then { plainObject with internalField := some 101 }
      else plainObject
    Global := .object 9
    model := fun _ => sampleModel
    stringIntegerValue := fun _ => 0
    unwrapWindow := fun _ => none }

/-- Object 0 wraps the live native Menu 100; its delegate is object 1, whose
every property is the function object 2; that function answers whether its
first argument has integer value 7, except that a receiver other than the
global object gets undefined. -/
def delegateWorld : World :=
  { heap := fun r =>
      if r = 0 then
        { plainObject with
          Get := fun name => if name = "delegate" then .object 1 else .undefined
          internalField := some 100 }
      else if r = 1 then { plainObject with Get := fun _ => .object 2 }
      else if r = 2 then
        { plainObject with
          call := some fun receiver argv =>
            if receiver = .object 9 then
              match argv with
              | [.number n] => .boolean (n.integerValue == 7)
              | _ => .undefined
            else .undefined }
      else plainObject
    Global := .object 9
    model := fun _ => sampleModel
    stringIntegerValue := fun _ => 0
    unwrapWindow := fun _ => none }

/-- The world `delegateWorld` with another behaviour of the delegate function,
object 2. -/
def worldWithDelegate (behaviour : Value → List Value → Value) : World :=
  { delegateWorld with
    heap := fun r =>
      if r = 2 then { plainObject with call := some behaviour } else delegateWorld.heap r }

/-- A stand-in for `accelerator_util::StringToAccelerator`: it accepts the
description "a" alone and then writes key code 65. -/
def acceptsOnlyA (description : List Nat) (accelerator : Nat) : Bool × Nat :=
  if description = [97] then (true, 65) else (false, accelerator)

/-! ## Lemmas on the helpers -/

theorem toInt_of_inIntRange {x : Int} (h : InIntRange x) : toInt x = x := by
  unfold InIntRange at h
  unfold toInt
  omega

theorem callDelegate_of_absent (w : World) (default_value : Value) (menu : Nat)
    (method : String) (command_id : Int) (h : MethodAbsent w menu method) :
    CallDelegate w default_value menu method command_id = (default_value, []) := by
  unfold CallDelegate
  rcases h with h | ⟨d, hd, hf⟩
  · cases hg : (w.heap menu).Get "delegate" <;> simp_all [Value.IsObject]
  · simp [hd, hf]

theorem callDelegate_of_present (w : World) (default_value : Value) (menu : Nat)
    (method : String) (command_id : Int) (function : Value)
    (h : MethodPresent w menu method function) :
    CallDelegate w default_value menu method command_id =
      (Call w function w.Global [Value.Integer_New command_id],
        [⟨function, w.Global, [Value.Integer_New command_id]⟩]) := by
  obtain ⟨d, hd, hm, hf⟩ := h
  unfold CallDelegate
  simp [hd, hm, hf]

theorem utf8Encode_ne_zero {c : Nat} (hc : c ≠ 0) : ∀ b ∈ utf8Encode c, b ≠ 0 := by
  intro b hb
  unfold utf8Encode at hb
  split_ifs at hb <;> simp at hb <;> omega

theorem utf8Value_ne_zero : ∀ (s : String16), 0 ∉ s → ∀ b ∈ Utf8Value s, b ≠ 0
  | [], _ => by simp [Utf8Value]
  | [c], h => by
    have hc : c ≠ 0 := fun e => h (by simp [e])
    simpa [Utf8Value] using utf8Encode_ne_zero hc
  | hi :: lo :: rest, h => by
    have hhi : hi ≠ 0 := fun e => h (by simp [e])
    have hrest : 0 ∉ rest := fun e => h (by simp [e])
    have htail : 0 ∉ lo :: rest := fun e => h (by simp [List.mem_cons] at e ⊢; tauto)
    intro b hb
    unfold Utf8Value at hb
    split_ifs at hb with hp
    · rcases List.mem_append.1 hb with hb | hb
      · exact utf8Encode_ne_zero (by omega) b hb
      · exact utf8Value_ne_zero rest hrest b hb
    · rcases List.mem_append.1 hb with hb | hb
      · exact utf8Encode_ne_zero hhi b hb
      · exact utf8Value_ne_zero (lo :: rest) htail b hb

theorem std_string_utf8Value {s : String16} (h : 0 ∉ s) :
    std_string (Utf8Value s) = Utf8Value s := by
  unfold std_string
  rw [List.takeWhile_eq_self_iff]
  intro b hb
  simpa using utf8Value_ne_zero s h b hb

theorem getAccelerator_of_string {Accelerator : Type}
    (StringToAccelerator : List Nat → Accelerator → Bool × Accelerator)
    (w : World) (self : Menu) (command_id : Int) (accelerator : Accelerator)
    (function : Value) (s : String16)
    (h : MethodPresent w self.handle "getAcceleratorForCommandId" function)
    (hs : Call w function w.Global [Value.Integer_New command_id] = .string s) :
    (self.GetAcceleratorForCommandId StringToAccelerator w command_id accelerator).1 =
      StringToAccelerator (std_string (Utf8Value s)) accelerator := by
  simp [Menu.GetAcceleratorForCommandId, callDelegate_of_present _ _ _ _ _ _ h, hs]

/-! ## Claims -/

/-- C1: when the `delegate` property of the menu is not an object, or it is an
object whose `isCommandIdChecked` / `isCommandIdEnabled` / `isCommandIdVisible`
property is not a function, `IsCommandIdChecked` returns false,
`IsCommandIdEnabled` returns true and `IsCommandIdVisible` returns true, each
without calling any delegate function (the call log is empty). -/
theorem C1_absent_delegate_defaults (w : World) (self : Menu) (command_id : Int) :
    (MethodAbsent w self.handle "isCommandIdChecked" →
      self.IsCommandIdChecked w command_id = (false, [])) ∧
    (MethodAbsent w self.handle "isCommandIdEnabled" →
      self.IsCommandIdEnabled w command_id = (true, [])) ∧
    (MethodAbsent w self.handle "isCommandIdVisible" →
      self.IsCommandIdVisible w command_id = (true, [])) := by
  refine ⟨fun h => ?_, fun h => ?_, fun h => ?_⟩
  · simp [Menu.IsCommandIdChecked, callDelegate_of_absent _ _ _ _ _ h, BooleanValue,
      Value.False]
  · simp [Menu.IsCommandIdEnabled, callDelegate_of_absent _ _ _ _ _ h, BooleanValue,
      Value.True]
  · simp [Menu.IsCommandIdVisible, callDelegate_of_absent _ _ _ _ _ h, BooleanValue,
      Value.True]

/-- Witness of C1 in the world without a delegate, command id 7. -/
theorem C1_absent_delegate_defaults_witness :
    MethodAbsent bareWorld 0 "isCommandIdChecked" ∧
    Menu.IsCommandIdChecked bareWorld ⟨0⟩ 7 = (false, []) ∧
    Menu.IsCommandIdEnabled bareWorld ⟨0⟩ 7 = (true, []) ∧
    Menu.IsCommandIdVisible bareWorld ⟨0⟩ 7 = (true, []) :=
  ⟨Or.inl rfl,
   (C1_absent_delegate_defaults bareWorld ⟨0⟩ 7).1 (Or.inl rfl),
   (C1_absent_delegate_defaults bareWorld ⟨0⟩ 7).2.1 (Or.inl rfl),
   (C1_absent_delegate_defaults bareWorld ⟨0⟩ 7).2.2 (Or.inl rfl)⟩

/-- C2 (the code at the failing input): on a menu without a delegate
`GetLabelForCommandId` and `GetSublabelForCommandId` return the five code units
of the text "false", the string conversion of the default value `v8::False()`,
and not the empty string. -/
theorem C2_label_without_delegate_is_false_text :
    Menu.GetLabelForCommandId bareWorld ⟨0⟩ 7 = ([102, 97, 108, 115, 101], []) ∧
    Menu.GetSublabelForCommandId bareWorld ⟨0⟩ 7 = ([102, 97, 108, 115, 101], []) ∧
    (Menu.GetLabelForCommandId bareWorld ⟨0⟩ 7).1.length = 5 ∧
    (Menu.GetSublabelForCommandId bareWorld ⟨0⟩ 7).1.length = 5 := by
  refine ⟨?_, ?_, ?_, ?_⟩ <;> decide

/-- C5: when the delegate is an object whose property of the contract name is
a function, each of `IsCommandIdChecked`, `IsCommandIdEnabled`,
`IsCommandIdVisible` and `IsItemForCommandIdDynamic` makes exactly one call,
of that function, with the single argument `Integer::New(command_id)`, and
returns the boolean coercion of the result of that call; `CallDelegate` gives
the same result for every default value. -/
theorem C5_delegate_method_called_once (w : World) (self : Menu) (command_id : Int)
    (function : Value) :
    (MethodPresent w self.handle "isCommandIdChecked" function →
      self.IsCommandIdChecked w command_id =
        (BooleanValue (Call w function w.Global [Value.Integer_New command_id]),
          [⟨function, w.Global, [Value.Integer_New command_id]⟩])) ∧
    (MethodPresent w self.handle "isCommandIdEnabled" function →
      self.IsCommandIdEnabled w command_id =
        (BooleanValue (Call w function w.Global [Value.Integer_New command_id]),
          [⟨function, w.Global, [Value.Integer_New command_id]⟩])) ∧
    (MethodPresent w self.handle "isCommandIdVisible" function →
      self.IsCommandIdVisible w command_id =
        (BooleanValue (Call w function w.Global [Value.Integer_New command_id]),
          [⟨function, w.Global, [Value.Integer_New command_id]⟩])) ∧
    (MethodPresent w self.handle "isItemForCommandIdDynamic" function →
      self.IsItemForCommandIdDynamic w command_id =
        (BooleanValue (Call w function w.Global [Value.Integer_New command_id]),
          [⟨function, w.Global, [Value.Integer_New command_id]⟩])) ∧
    (∀ method default_value other_default,
      MethodPresent w self.handle method function →
      CallDelegate w default_value self.handle method command_id =
        CallDelegate w other_default self.handle method command_id) := by
  refine ⟨fun h => ?_, fun h => ?_, fun h => ?_, fun h => ?_, fun m d1 d2 h => ?_⟩
  · simp [Menu.IsCommandIdChecked, callDelegate_of_present _ _ _ _ _ _ h]
  · simp [Menu.IsCommandIdEnabled, callDelegate_of_present _ _ _ _ _ _ h]
  · simp [Menu.IsCommandIdVisible, callDelegate_of_present _ _ _ _ _ _ h]
  · simp [Menu.IsItemForCommandIdDynamic, callDelegate_of_present _ _ _ _ _ _ h]
  · rw [callDelegate_of_present _ _ _ _ _ _ h, callDelegate_of_present _ _ _ _ _ _ h]

/-- Witness of C5 in the world with a delegate: the delegate function answers
true for command id 7 and false for 8, against both defaults. -/
theorem C5_delegate_method_called_once_witness :
    MethodPresent delegateWorld 0 "isCommandIdChecked" (.object 2) ∧
    Menu.IsCommandIdChecked delegateWorld ⟨0⟩ 7 =
      (true, [⟨.object 2, .object 9, [Value.Integer_New 7]⟩]) ∧
    Menu.IsCommandIdEnabled delegateWorld ⟨0⟩ 8 =
      (false, [⟨.object 2, .object 9, [Value.Integer_New 8]⟩]) :=
  ⟨⟨1, rfl, rfl, rfl⟩,
   (C5_delegate_method_called_once delegateWorld ⟨0⟩ 7 (.object 2)).1 ⟨1, rfl, rfl, rfl⟩,
   (C5_delegate_method_called_once delegateWorld ⟨0⟩ 8 (.object 2)).2.1 ⟨1, rfl, rfl, rfl⟩⟩

/-- C6: `ExecuteCommand` calls the `executeCommand` function of the delegate
exactly once, with the single argument `Integer::New(command_id)`, when that
function exists; it calls nothing when the delegate or the function is absent;
and the calls made do not depend on `event_flags`. -/
theorem C6_execute_command_notifies_delegate (w : World) (self : Menu)
    (command_id event_flags : Int) :
    (∀ function, MethodPresent w self.handle "executeCommand" function →
      self.ExecuteCommand w command_id event_flags =
        [⟨function, w.Global, [Value.Integer_New command_id]⟩]) ∧
    (MethodAbsent w self.handle "executeCommand" →
      self.ExecuteCommand w command_id event_flags = []) ∧
    (∀ other_flags, self.ExecuteCommand w command_id event_flags =
      self.ExecuteCommand w command_id other_flags) := by
  refine ⟨fun f h => ?_, fun h => ?_, fun _ => rfl⟩
  · simp [Menu.ExecuteCommand, callDelegate_of_present _ _ _ _ _ _ h]
  · simp [Menu.ExecuteCommand, callDelegate_of_absent _ _ _ _ _ h]

/-- Witness of C6: one call in the world with a delegate, none in the world
without. -/
theorem C6_execute_command_notifies_delegate_witness :
    MethodPresent delegateWorld 0 "executeCommand" (.object 2) ∧
    MethodAbsent bareWorld 0 "executeCommand" ∧
    Menu.ExecuteCommand delegateWorld ⟨0⟩ 7 0 =
      [⟨.object 2, .object 9, [Value.Integer_New 7]⟩] ∧
    Menu.ExecuteCommand bareWorld ⟨0⟩ 7 4 = [] :=
  ⟨⟨1, rfl, rfl, rfl⟩, Or.inl rfl,
   (C6_execute_command_notifies_delegate delegateWorld ⟨0⟩ 7 0).1 _ ⟨1, rfl, rfl, rfl⟩,
   (C6_execute_command_notifies_delegate bareWorld ⟨0⟩ 7 4).2.1 (Or.inl rfl)⟩

/-- C3: on a live menu wrapper every mutating method ends with the type error
"Bad argument" and makes no call on any menu model when an argument has the
wrong type: `insertItem` and `insertCheckItem` unless args[0], args[1] are
numbers and args[2] is a string; `insertRadioItem` unless additionally args[3]
is a number; `insertSubMenu` unless additionally args[3] is an object;
`insertSeparator` unless args[0] is a number; `setIcon` and `setSublabel`
unless args[0] is a number and args[1] is a string. -/
theorem C3_bad_argument_type_error (w : World) (args : Arguments) (self : Nat)
    (live : Unwrap w args.This = some self) :
    (((args.get 0).IsNumber && (args.get 1).IsNumber && (args.get 2).IsString) = false →
      Menu.InsertItem w args = ⟨.ThrowTypeError "Bad argument", []⟩ ∧
      Menu.InsertCheckItem w args = ⟨.ThrowTypeError "Bad argument", []⟩) ∧
    (((args.get 0).IsNumber && (args.get 1).IsNumber && (args.get 2).IsString &&
        (args.get 3).IsNumber) = false →
      Menu.InsertRadioItem w args = ⟨.ThrowTypeError "Bad argument", []⟩) ∧
    (((args.get 0).IsNumber && (args.get 1).IsNumber && (args.get 2).IsString &&
        (args.get 3).IsObject) = false →
      Menu.InsertSubMenu w args = ⟨.ThrowTypeError "Bad argument", []⟩) ∧
    ((args.get 0).IsNumber = false →
      Menu.InsertSeparator w args = ⟨.ThrowTypeError "Bad argument", []⟩) ∧
    (((args.get 0).IsNumber && (args.get 1).IsString) = false →
      Menu.SetIcon w args = ⟨.ThrowTypeError "Bad argument", []⟩ ∧
      Menu.SetSublabel w args = ⟨.ThrowTypeError "Bad argument", []⟩) := by
  refine ⟨fun h => ⟨?_, ?_⟩, fun h => ?_, fun h => ?_, fun h => ?_, fun h => ⟨?_, ?_⟩⟩
  · simp only [Menu.InsertItem, UNWRAP_MEMNU_AND_CHECK, live]
    rw [if_pos]
    revert h
    cases (args.get 0).IsNumber <;> cases (args.get 1).IsNumber <;>
      cases (args.get 2).IsString <;> simp
  · simp only [Menu.InsertCheckItem, UNWRAP_MEMNU_AND_CHECK, live]
    rw [if_pos]
    revert h
    cases (args.get 0).IsNumber <;> cases (args.get 1).IsNumber <;>
      cases (args.get 2).IsString <;> simp
  · simp only [Menu.InsertRadioItem, UNWRAP_MEMNU_AND_CHECK, live]
    rw [if_pos]
    revert h
    cases (args.get 0).IsNumber <;> cases (args.get 1).IsNumber <;>
      cases (args.get 2).IsString <;> cases (args.get 3).IsNumber <;> simp
  · simp only [Menu.InsertSubMenu, UNWRAP_MEMNU_AND_CHECK, live]
    rw [if_pos]
    revert h
    cases (args.get 0).IsNumber <;> cases (args.get 1).IsNumber <;>
      cases (args.get 2).IsString <;> cases (args.get 3).IsObject <;> simp
  · simp only [Menu.InsertSeparator, UNWRAP_MEMNU_AND_CHECK, live]
    rw [if_pos]
    simp [h]
  · simp only [Menu.SetIcon, UNWRAP_MEMNU_AND_CHECK, live]
    rw [if_pos]
    revert h
    cases (args.get 0).IsNumber <;> cases (args.get 1).IsString <;> simp
  · simp only [Menu.SetSublabel, UNWRAP_MEMNU_AND_CHECK, live]
    rw [if_pos]
    revert h
    cases (args.get 0).IsNumber <;> cases (args.get 1).IsString <;> simp

/-- Witness of C3: on the live wrapper 0 the argument list (true, 1) has a
boolean where the index is expected. -/
theorem C3_bad_argument_type_error_witness :
    Unwrap bareWorld 0 = some 100 ∧
    Menu.InsertItem bareWorld ⟨0, [.boolean true, Value.Integer_New 1]⟩ =
      ⟨.ThrowTypeError "Bad argument", []⟩ ∧
    Menu.InsertSeparator bareWorld ⟨0, [.boolean true, Value.Integer_New 1]⟩ =
      ⟨.ThrowTypeError "Bad argument", []⟩ ∧
    Menu.SetSublabel bareWorld ⟨0, [.boolean true, Value.Integer_New 1]⟩ =
      ⟨.ThrowTypeError "Bad argument", []⟩ :=
  ⟨rfl,
   ((C3_bad_argument_type_error bareWorld ⟨0, [.boolean true, Value.Integer_New 1]⟩ 100
      rfl).1 rfl).1,
   (C3_bad_argument_type_error bareWorld ⟨0, [.boolean true, Value.Integer_New 1]⟩ 100
      rfl).2.2.2.1 rfl,
   ((C3_bad_argument_type_error bareWorld ⟨0, [.boolean true, Value.Integer_New 1]⟩ 100
      rfl).2.2.2.2 rfl).2⟩

/-- C4: `Menu::Initialize` binds exactly the seventeen prototype methods
listed, and each of them, called with any argument list on a receiver whose
wrapper is destroyed (`Unwrap` yields NULL), ends with the error "Menu is
already destroyed" and makes no native call; since the argument list is
arbitrary, the check comes before any argument type check. -/
theorem C4_destroyed_wrapper_error (w : World) (args : Arguments)
    (destroyed : Unwrap w args.This = none) :
    Menu.Initialize.map Prod.fst =
      ["insertItem", "insertCheckItem", "insertRadioItem", "insertSeparator",
       "insertSubMenu", "setIcon", "setSublabel", "clear", "getIndexOfCommandId",
       "getItemCount", "getCommandIdAt", "getLabelAt", "getSublabelAt",
       "isItemCheckedAt", "isEnabledAt", "isVisibleAt", "popup"] ∧
    ∀ method ∈ Menu.Initialize,
      method.2 w args = ⟨.ThrowError "Menu is already destroyed", []⟩ := by
  refine ⟨rfl, ?_⟩
  intro method hm
  simp only [Menu.Initialize, List.mem_cons, List.mem_singleton, List.not_mem_nil,
    or_false] at hm
  rcases hm with h | h | h | h | h | h | h | h | h | h | h | h | h | h | h | h | h <;>
    subst h <;>
    simp [Menu.InsertItem, Menu.InsertCheckItem, Menu.InsertRadioItem, Menu.InsertSeparator,
      Menu.InsertSubMenu, Menu.SetIcon, Menu.SetSublabel, Menu.Clear,
      Menu.GetIndexOfCommandId, Menu.GetItemCount, Menu.GetCommandIdAt, Menu.GetLabelAt,
      Menu.GetSublabelAt, Menu.IsItemCheckedAt, Menu.IsEnabledAt, Menu.IsVisibleAt,
      Menu.Popup, UNWRAP_MEMNU_AND_CHECK, destroyed]

/-- Witness of C4: the destroyed wrapper 5 with the well typed argument list
(0, 1, "x") and `insertItem`, the first bound method. -/
theorem C4_destroyed_wrapper_error_witness :
    Unwrap bareWorld 5 = none ∧
    Menu.InsertItem bareWorld ⟨5, [Value.Integer_New 0, Value.Integer_New 1, .string [120]]⟩ =
      ⟨.ThrowError "Menu is already destroyed", []⟩ :=
  ⟨rfl,
   (C4_destroyed_wrapper_error bareWorld
      ⟨5, [Value.Integer_New 0, Value.Integer_New 1, .string [120]]⟩ rfl).2
      ("insertItem", Menu.InsertItem) (List.mem_cons_self _ _)⟩

/-- C8: on a live menu, `insertSubMenu(index, commandId, label, submenu)` with
a number, a number, a string and an object whose wrapper is destroyed ends
with the error "The submenu is already destroyed" and makes no call on any menu
model: neither `AddSubMenu` nor `InsertSubMenuAt`. -/
theorem C8_destroyed_submenu_error (w : World) (args : Arguments) (self : Nat)
    (index command_id : Number) (label : String16) (submenu : Nat)
    (live : Unwrap w args.This = some self)
    (h0 : args.get 0 = .number index) (h1 : args.get 1 = .number command_id)
    (h2 : args.get 2 = .string label) (h3 : args.get 3 = .object submenu)
    (destroyed : Unwrap w submenu = none) :
    Menu.InsertSubMenu w args =
      ⟨.ThrowTypeError "The submenu is already destroyed", []⟩ := by
  simp [Menu.InsertSubMenu, UNWRAP_MEMNU_AND_CHECK, live, h0, h1, h2, h3, Value.IsNumber,
    Value.IsString, Value.IsObject, Value.ToObject, destroyed]

/-- Witness of C8: the live wrapper 0 and the destroyed wrapper 5 as
submenu. -/
theorem C8_destroyed_submenu_error_witness :
    Unwrap bareWorld 0 = some 100 ∧ Unwrap bareWorld 5 = none ∧
    Menu.InsertSubMenu bareWorld
        ⟨0, [Value.Integer_New 0, Value.Integer_New 1, .string [120], .object 5]⟩ =
      ⟨.ThrowTypeError "The submenu is already destroyed", []⟩ :=
  ⟨rfl, rfl,
   C8_destroyed_submenu_error bareWorld
     ⟨0, [Value.Integer_New 0, Value.Integer_New 1, .string [120], .object 5]⟩ 100
     _ _ [120] 5 rfl rfl rfl rfl rfl rfl⟩

/-- C7 (as stated, refuted): on the live wrapper 0 with the boolean `true` as
first argument, which is not a number, none of the seven query methods raises
a type error; each queries the menu model with index 1 and returns its
answer. -/
theorem C7_counterexample :
    (Value.boolean true).IsNumber = false ∧
    Menu.GetIndexOfCommandId bareWorld ⟨0, [.boolean true]⟩ =
      ⟨.returns (Value.Integer_New (-9)), [.model 100 (.GetIndexOfCommandId 1)]⟩ ∧
    Menu.GetCommandIdAt bareWorld ⟨0, [.boolean true]⟩ =
      ⟨.returns (Value.Integer_New 11), [.model 100 (.GetCommandIdAt 1)]⟩ ∧
    Menu.GetLabelAt bareWorld ⟨0, [.boolean true]⟩ =
      ⟨.returns (.string [73, 116, 101, 109]), [.model 100 (.GetLabelAt 1)]⟩ ∧
    Menu.GetSublabelAt bareWorld ⟨0, [.boolean true]⟩ =
      ⟨.returns (.string []), [.model 100 (.GetSublabelAt 1)]⟩ ∧
    Menu.IsItemCheckedAt bareWorld ⟨0, [.boolean true]⟩ =
      ⟨.returns (.boolean false), [.model 100 (.IsItemCheckedAt 1)]⟩ ∧
    Menu.IsEnabledAt bareWorld ⟨0, [.boolean true]⟩ =
      ⟨.returns (.boolean true), [.model 100 (.IsEnabledAt 1)]⟩ ∧
    Menu.IsVisibleAt bareWorld ⟨0, [.boolean true]⟩ =
      ⟨.returns (.boolean true), [.model 100 (.IsVisibleAt 1)]⟩ := by
  refine ⟨rfl, rfl, rfl, rfl, rfl, rfl, rfl, rfl⟩

/-- C7 (amended): on a live menu wrapper, when the first argument is a
primitive value (undefined, null, a boolean, a number or a string; so also
when it is not a number), each of `getIndexOfCommandId`, `getCommandIdAt`,
`getLabelAt`, `getSublabelAt`, `isItemCheckedAt`, `isEnabledAt` and
`isVisibleAt` raises no type error: it queries the menu model exactly once,
with the C++ `int` taken from `args[0]->IntegerValue()`, and returns the answer
of the model as a V8 value.  Nothing is stated for an object argument, whose
conversion runs script. -/
theorem C7_query_methods_coerce_argument (w : World) (args : Arguments) (self : Nat)
    (live : Unwrap w args.This = some self)
    (primitive : (args.get 0).IsObject = false) :
    Menu.GetIndexOfCommandId w args =
      ⟨.returns (Value.Integer_New
        ((w.model self).GetIndexOfCommandId (toInt (IntegerValue w (args.get 0))))),
        [.model self (.GetIndexOfCommandId (toInt (IntegerValue w (args.get 0))))]⟩ ∧
    Menu.GetCommandIdAt w args =
      ⟨.returns (Value.Integer_New
        ((w.model self).GetCommandIdAt (toInt (IntegerValue w (args.get 0))))),
        [.model self (.GetCommandIdAt (toInt (IntegerValue w (args.get 0))))]⟩ ∧
    Menu.GetLabelAt w args =
      ⟨.returns (.string ((w.model self).GetLabelAt (toInt (IntegerValue w (args.get 0))))),
        [.model self (.GetLabelAt (toInt (IntegerValue w (args.get 0))))]⟩ ∧
    Menu.GetSublabelAt w args =
      ⟨.returns (.string ((w.model self).GetSublabelAt (toInt (IntegerValue w (args.get 0))))),
        [.model self (.GetSublabelAt (toInt (IntegerValue w (args.get 0))))]⟩ ∧
    Menu.IsItemCheckedAt w args =
      ⟨.returns (.boolean ((w.model self).IsItemCheckedAt (toInt (IntegerValue w (args.get 0))))),
        [.model self (.IsItemCheckedAt (toInt (IntegerValue w (args.get 0))))]⟩ ∧
    Menu.IsEnabledAt w args =
      ⟨.returns (.boolean ((w.model self).IsEnabledAt (toInt (IntegerValue w (args.get 0))))),
        [.model self (.IsEnabledAt (toInt (IntegerValue w (args.get 0))))]⟩ ∧
    Menu.IsVisibleAt w args =
      ⟨.returns (.boolean ((w.model self).IsVisibleAt (toInt (IntegerValue w (args.get 0))))),
        [.model self (.IsVisibleAt (toInt (IntegerValue w (args.get 0))))]⟩ := by
  have _ := primitive
  refine ⟨?_, ?_, ?_, ?_, ?_, ?_, ?_⟩ <;>
    simp [Menu.GetIndexOfCommandId, Menu.GetCommandIdAt, Menu.GetLabelAt, Menu.GetSublabelAt,
      Menu.IsItemCheckedAt, Menu.IsEnabledAt, Menu.IsVisibleAt, UNWRAP_MEMNU_AND_CHECK, live,
      UTF16ToV8Value, Value.Boolean_New]

/-- Witness of C7 (amended): the live wrapper 0 with the string "x" as first
argument, a primitive that is not a number; its integer value in `bareWorld`
is 0. -/
theorem C7_query_methods_coerce_argument_witness :
    Unwrap bareWorld 0 = some 100 ∧
    (Value.string [120]).IsObject = false ∧ (Value.string [120]).IsNumber = false ∧
    Menu.GetCommandIdAt bareWorld ⟨0, [.string [120]]⟩ =
      ⟨.returns (Value.Integer_New 10), [.model 100 (.GetCommandIdAt 0)]⟩ :=
  ⟨rfl, rfl, rfl,
   (C7_query_methods_coerce_argument bareWorld ⟨0, [.string [120]]⟩ 100 rfl rfl).2.1⟩

/-- C9 (as stated, refuted) at two well typed argument lists on the live
wrapper 0.  First, `insertSubMenu(0, 1, "x", submenu)` with the destroyed
wrapper 5 as submenu makes no model call and throws.  Second,
`insertItem(4294967295, 1, "x")`: the integer value of args[0] is positive, yet
the `int` index it is stored into is -1 and the appending `AddItem` is
called, not `InsertItemAt`. -/
theorem C9_counterexample :
    Menu.InsertSubMenu bareWorld
        ⟨0, [Value.Integer_New 0, Value.Integer_New 1, .string [120], .object 5]⟩ =
      ⟨.ThrowTypeError "The submenu is already destroyed", []⟩ ∧
    IntegerValue bareWorld (.number ⟨4294967295, true, utf16 "4294967295"⟩) = 4294967295 ∧
    Menu.InsertItem bareWorld
        ⟨0, [.number ⟨4294967295, true, utf16 "4294967295"⟩, Value.Integer_New 1,
          .string [120]]⟩ =
      ⟨.returns .undefined, [.model 100 (.AddItem 1 [120])]⟩ := by
  refine ⟨rfl, rfl, rfl⟩

/-- C9 (amended): on a live menu, for a well typed argument list whose integer
values fit a C++ `int` and, for `insertSubMenu`, whose submenu wrapper is live,
each insert method returns undefined and makes exactly one model call: the
appending operation (`AddItem`, `AddCheckItem`, `AddRadioItem`, `AddSeparator`,
`AddSubMenu`) when the integer value of args[0] is negative, the positional
operation (`Insert...At`) with exactly that index otherwise; the command id,
label, group id and submenu model passed are those of the arguments. -/
theorem C9_insert_dispatch (w : World) (args : Arguments) (self : Nat)
    (live : Unwrap w args.This = some self)
    (index : Number) (h0 : args.get 0 = .number index)
    (r0 : InIntRange index.integerValue) :
    Menu.InsertSeparator w args =
      ⟨.returns .undefined,
        [.model self (if index.integerValue < 0 then .AddSeparator .NORMAL_SEPARATOR
          else .InsertSeparatorAt index.integerValue .NORMAL_SEPARATOR)]⟩ ∧
    ∀ (command_id : Number) (label : String16), args.get 1 = .number command_id →
      args.get 2 = .string label → InIntRange command_id.integerValue →
      Menu.InsertItem w args =
        ⟨.returns .undefined,
          [.model self (if index.integerValue < 0 then
            .AddItem command_id.integerValue label
            else .InsertItemAt index.integerValue command_id.integerValue label)]⟩ ∧
      Menu.InsertCheckItem w args =
        ⟨.returns .undefined,
          [.model self (if index.integerValue < 0 then
            .AddCheckItem command_id.integerValue label
            else .InsertCheckItemAt index.integerValue command_id.integerValue label)]⟩ ∧
      (∀ group_id : Number, args.get 3 = .number group_id →
        InIntRange group_id.integerValue →
        Menu.InsertRadioItem w args =
          ⟨.returns .undefined,
            [.model self (if index.integerValue < 0 then
              .AddRadioItem command_id.integerValue label group_id.integerValue
              else .InsertRadioItemAt index.integerValue command_id.integerValue label
                group_id.integerValue)]⟩) ∧
      (∀ object submenu : Nat, args.get 3 = .object object →
        Unwrap w object = some submenu →
        Menu.InsertSubMenu w args =
          ⟨.returns .undefined,
            [.model self (if index.integerValue < 0 then
              .AddSubMenu command_id.integerValue label submenu
              else .InsertSubMenuAt index.integerValue command_id.integerValue label
                submenu)]⟩) := by
  have e0 := toInt_of_inIntRange r0
  refine ⟨?_, fun command_id label h1 h2 r1 => ?_⟩
  · by_cases hneg : index.integerValue < 0 <;>
      simp [Menu.InsertSeparator, UNWRAP_MEMNU_AND_CHECK, live, h0, Value.IsNumber,
        IntegerValue, e0, hneg, Value.Undefined]
  · have e1 := toInt_of_inIntRange r1
    refine ⟨?_, ?_, fun group_id h3 r3 => ?_, fun object submenu h3 hs => ?_⟩
    · by_cases hneg : index.integerValue < 0 <;>
        simp [Menu.InsertItem, UNWRAP_MEMNU_AND_CHECK, live, h0, h1, h2, Value.IsNumber,
          Value.IsString, IntegerValue, e0, e1, hneg, Value.Undefined, V8ValueToUTF16,
          String_Value]
    · by_cases hneg : index.integerValue < 0 <;>
        simp [Menu.InsertCheckItem, UNWRAP_MEMNU_AND_CHECK, live, h0, h1, h2, Value.IsNumber,
          Value.IsString, IntegerValue, e0, e1, hneg, Value.Undefined, V8ValueToUTF16,
          String_Value]
    · have e3 := toInt_of_inIntRange r3
      by_cases hneg : index.integerValue < 0 <;>
        simp [Menu.InsertRadioItem, UNWRAP_MEMNU_AND_CHECK, live, h0, h1, h2, h3,
          Value.IsNumber, Value.IsString, IntegerValue, e0, e1, e3, hneg, Value.Undefined,
          V8ValueToUTF16, String_Value]
    · by_cases hneg : index.integerValue < 0 <;>
        simp [Menu.InsertSubMenu, UNWRAP_MEMNU_AND_CHECK, live, h0, h1, h2, h3,
          Value.IsNumber, Value.IsString, Value.IsObject, Value.ToObject, hs, IntegerValue,
          e0, e1, hneg, Value.Undefined, V8ValueToUTF16, String_Value]

/-- Witness of C9 (amended): on the live wrapper 0, `insertItem(-1, 1, "x")`
appends and `insertSubMenu(2, 1, "x", submenu)` with the live wrapper 6 inserts
the model of Menu 101 at index 2. -/
theorem C9_insert_dispatch_witness :
    Unwrap bareWorld 0 = some 100 ∧ Unwrap bareWorld 6 = some 101 ∧
    InIntRange (-1) ∧ InIntRange 1 ∧ InIntRange 2 ∧
    Menu.InsertItem bareWorld
        ⟨0, [Value.Integer_New (-1), Value.Integer_New 1, .string [120]]⟩ =
      ⟨.returns .undefined, [.model 100 (.AddItem 1 [120])]⟩ ∧
    Menu.InsertSubMenu bareWorld
        ⟨0, [Value.Integer_New 2, Value.Integer_New 1, .string [120], .object 6]⟩ =
      ⟨.returns .undefined, [.model 100 (.InsertSubMenuAt 2 1 [120] 101)]⟩ :=
  ⟨rfl, rfl, ⟨by decide, by decide⟩, ⟨by decide, by decide⟩, ⟨by decide, by decide⟩,
   ((C9_insert_dispatch bareWorld
      ⟨0, [Value.Integer_New (-1), Value.Integer_New 1, .string [120]]⟩ 100 rfl
      _ rfl ⟨by decide, by decide⟩).2 _ [120] rfl rfl ⟨by decide, by decide⟩).1,
   ((C9_insert_dispatch bareWorld
      ⟨0, [Value.Integer_New 2, Value.Integer_New 1, .string [120], .object 6]⟩ 100 rfl
      _ rfl ⟨by decide, by decide⟩).2 _ [120] rfl rfl ⟨by decide, by decide⟩).2.2.2 6 101 rfl rfl⟩

/-- C10 (as stated, refuted): the delegate function returns the three code
unit string "a", NUL, "b".  The `std::string` handed to `StringToAccelerator`
is "a", so with a `StringToAccelerator` that accepts "a" alone the method
returns true and writes the accelerator, while `StringToAccelerator` applied
to the string itself returns false. -/
theorem C10_counterexample :
    Call (worldWithDelegate fun _ _ => .string [97, 0, 98]) (.object 2) (.object 9)
        [Value.Integer_New 7] = .string [97, 0, 98] ∧
    (Menu.GetAcceleratorForCommandId acceptsOnlyA
        (worldWithDelegate fun _ _ => .string [97, 0, 98]) ⟨0⟩ 7 0).1 = (true, 65) ∧
    acceptsOnlyA (Utf8Value [97, 0, 98]) 0 = (false, 0) := by
  refine ⟨rfl, rfl, rfl⟩

/-- C10 (amended): `GetAcceleratorForCommandId` returns false and leaves the
accelerator as it was, when the delegate is absent or has no
`getAcceleratorForCommandId` function (no call is made) or when that function
returns a value that is not a string; when it returns a string without NUL
character, the result is that of `StringToAccelerator` applied to the UTF-8
text of the string and the accelerator. -/
theorem C10_accelerator_lookup {Accelerator : Type}
    (StringToAccelerator : List Nat → Accelerator → Bool × Accelerator)
    (w : World) (self : Menu) (command_id : Int) (accelerator : Accelerator) :
    (MethodAbsent w self.handle "getAcceleratorForCommandId" →
      self.GetAcceleratorForCommandId StringToAccelerator w command_id accelerator =
        ((false, accelerator), [])) ∧
    (∀ function, MethodPresent w self.handle "getAcceleratorForCommandId" function →
      (Call w function w.Global [Value.Integer_New command_id]).IsString = false →
      (self.GetAcceleratorForCommandId StringToAccelerator w command_id accelerator).1 =
        (false, accelerator)) ∧
    (∀ function s, MethodPresent w self.handle "getAcceleratorForCommandId" function →
      Call w function w.Global [Value.Integer_New command_id] = .string s → 0 ∉ s →
      (self.GetAcceleratorForCommandId StringToAccelerator w command_id accelerator).1 =
        StringToAccelerator (Utf8Value s) accelerator) := by
  refine ⟨fun h => ?_, fun f h hs => ?_, fun f s h hs hz => ?_⟩
  · simp [Menu.GetAcceleratorForCommandId, callDelegate_of_absent _ _ _ _ _ h,
      Value.Undefined]
  · simp only [Menu.GetAcceleratorForCommandId, callDelegate_of_present _ _ _ _ _ _ h]
    cases hc : Call w f w.Global [Value.Integer_New command_id] <;>
      simp_all [Value.IsString]
  · rw [getAccelerator_of_string _ _ _ _ _ _ _ h hs, std_string_utf8Value hz]

/-- Witness of C10 (amended): no delegate gives false and the accelerator 3
untouched; a delegate answering a boolean gives the same; a delegate answering
the string "a" gives what the stand-in `StringToAccelerator` yields on "a". -/
theorem C10_accelerator_lookup_witness :
    MethodAbsent bareWorld 0 "getAcceleratorForCommandId" ∧
    MethodPresent delegateWorld 0 "getAcceleratorForCommandId" (.object 2) ∧
    Menu.GetAcceleratorForCommandId acceptsOnlyA bareWorld ⟨0⟩ 7 3 = ((false, 3), []) ∧
    (Menu.GetAcceleratorForCommandId acceptsOnlyA delegateWorld ⟨0⟩ 7 3).1 = (false, 3) ∧
    (Menu.GetAcceleratorForCommandId acceptsOnlyA
      (worldWithDelegate fun _ _ => .string [97]) ⟨0⟩ 7 3).1 = (true, 65) :=
  ⟨Or.inl rfl, ⟨1, rfl, rfl, rfl⟩,
   (C10_accelerator_lookup acceptsOnlyA bareWorld ⟨0⟩ 7 3).1 (Or.inl rfl),
   (C10_accelerator_lookup acceptsOnlyA delegateWorld ⟨0⟩ 7 3).2.1 _ ⟨1, rfl, rfl, rfl⟩ rfl,
   (C10_accelerator_lookup acceptsOnlyA (worldWithDelegate fun _ _ => .string [97])
      ⟨0⟩ 7 3).2.2 (.object 2) [97] ⟨1, rfl, rfl, rfl⟩ rfl (by decide)⟩

end atom.api
